import Mathlib

/-!
Shallow embedding of the Codex agent-session orchestration layer:
the tRPC `codexRouter` (provider session pool, active-run registry,
turn executor, login-session flow) and the renderer-side
`ACPChatTransport` (auth-error recovery, one-shot fresh-session flag).

JS `Map`s keyed by strings are embedded as association lists with
`Map.set`/`Map.delete` semantics; `AbortController`s and provider
instances are identified by natural-number ids, with "aborted" and
"cleaned up" tracked as lists of ids.  Side effects (toast, modal,
database write) are returned as explicit flags.
-/

namespace OneCode

/-! ### Association-list maps (JS `Map` semantics) -/

def lookupA {α : Type} (m : List (String × α)) (k : String) : Option α :=
  (m.find? (fun e => e.1 == k)).map (fun e => e.2)

def insertA {α : Type} (m : List (String × α)) (k : String) (v : α) :
    List (String × α) :=
  (k, v) :: m.filter (fun e => e.1 != k)

def eraseA {α : Type} (m : List (String × α)) (k : String) : List (String × α) :=
  m.filter (fun e => e.1 != k)

theorem lookupA_insertA_self {α : Type} (m : List (String × α)) (k : String) (v : α) :
    lookupA (insertA m k v) k = some v := by
  unfold lookupA insertA
  rw [List.find?_cons_of_pos _ (by simp)]
  rfl

theorem find?_filter_ne_eq_none {α : Type} (m : List (String × α)) (k : String) :
    (m.filter (fun e => e.1 != k)).find? (fun e => e.1 == k) = none := by
  rw [List.find?_eq_none]
  intro x hx
  have hmem := List.mem_filter.mp hx
  simpa using hmem.2

theorem lookupA_eraseA_self {α : Type} (m : List (String × α)) (k : String) :
    lookupA (eraseA m k) k = none := by
  unfold lookupA eraseA
  rw [find?_filter_ne_eq_none]
  rfl

/-! ### JS string primitives

Structural char-list implementations of the JavaScript string operations
the source uses (`trim`, `toLowerCase`, `includes`, `split`), so that all
definitions evaluate by kernel reduction. -/

def isJsWhitespace (c : Char) : Bool :=
  c == ' ' || c == '\t' || c == '\n' || c == '\r' || c == '\x0b' || c == '\x0c'

/-- JS `String.prototype.trim`. -/
def trimString (s : String) : String :=
  String.mk (((s.data.dropWhile isJsWhitespace).reverse.dropWhile
    isJsWhitespace).reverse)

def lowerChar (c : Char) : Char :=
  if 65 ≤ c.toNat ∧ c.toNat ≤ 90 then Char.ofNat (c.toNat + 32) else c

/-- JS `String.prototype.toLowerCase` (ASCII range, which covers the fixed
auth-hint list). -/
def lowerString (s : String) : String :=
  String.mk (s.data.map lowerChar)

/-- Whether `cs` starts with `pat`. -/
def leadsWith : List Char → List Char → Bool
  | _, [] => true
  | [], _ :: _ => false
  | c :: cs, p :: ps => c == p && leadsWith cs ps

/-- Whether `pat` occurs somewhere in `cs`. -/
def containsSeq : List Char → List Char → Bool
  | [], pat => leadsWith [] pat
  | c :: rest, pat => leadsWith (c :: rest) pat || containsSeq rest pat

/-- JS `String.prototype.includes`. -/
def strIncludes (s pat : String) : Bool :=
  containsSeq s.data pat.data

/-- JS `String.prototype.split` with a single separator character. -/
def splitOnCharAux (sep : Char) : List Char → List Char → List String
  | [], acc => [String.mk acc.reverse]
  | c :: rest, acc =>
    if c == sep then String.mk acc.reverse :: splitOnCharAux sep rest []
    else splitOnCharAux sep rest (c :: acc)

def splitOnChar (s : String) (sep : Char) : List String :=
  splitOnCharAux sep s.data []

/-! ### Auth config and fingerprints -/

structure AuthConfig where
  apiKey : String
deriving Repr, DecidableEq

/-- Modelled from the spec: the repository calls Node's
`createHash("sha256").update(apiKey).digest("hex")`, an external library;
the spec (§4.1) requires only "a deterministic content hash".  Embedded as
an injective deterministic tagging function. -/
def sha256Hex (s : String) : String := "sha256(" ++ s ++ ")"

/-- Function `getAuthFingerprint` from the router: trim the api key; a missing or
blank key yields `null`, otherwise the sha256 digest of the trimmed key. -/
def getAuthFingerprint (authConfig : Option AuthConfig) : Option String :=
  match authConfig with
  | none => none
  | some a =>
    let apiKey := trimString a.apiKey
    if apiKey == "" then none else some (sha256Hex apiKey)

/-- Expression `Boolean(params.authConfig?.apiKey?.trim())` from the router. -/
def hasAppManagedApiKey (authConfig : Option AuthConfig) : Bool :=
  match authConfig with
  | none => false
  | some a => trimString a.apiKey != ""

/-- Function `getCodexAuthMethodId` from the router. -/
def getCodexAuthMethodId (authConfig : Option AuthConfig) : Option String :=
  match authConfig with
  | none => none
  | some a => if trimString a.apiKey == "" then none else some "codex-api-key"

/-! ### MCP servers and provider instances -/

inductive CodexMcpServerForSession where
  | stdio (name command : String) (args : List String)
      (env : List (String × String))
  | http (name url : String) (headers : List (String × String))
deriving Repr, DecidableEq

/-- A constructed ACP provider instance: the arguments `createACPProvider`
received, plus a fresh id standing for object identity. -/
structure ACPProvider where
  id : Nat
  cwd : String
  mcpServers : List CodexMcpServerForSession
  authMethodId : Option String
  existingSessionId : Option String
deriving Repr, DecidableEq

structure CodexProviderSession where
  provider : ACPProvider
  cwd : String
  authFingerprint : Option String
  mcpFingerprint : String
deriving Repr, DecidableEq

/-- The provider-session pool: the `providerSessions` map, a fresh-id
counter for provider instances, and the ids of providers whose
`cleanup()` has been invoked. -/
structure PoolState where
  providerSessions : List (String × CodexProviderSession)
  nextProviderId : Nat
  cleanedUp : List Nat
deriving Repr, DecidableEq

structure ProviderParams where
  subChatId : String
  cwd : String
  mcpServers : List CodexMcpServerForSession
  mcpFingerprint : String
  existingSessionId : Option String
  authConfig : Option AuthConfig
deriving Repr, DecidableEq

/-- The `createACPProvider` call plus `providerSessions.set` at the end of
`getOrCreateProvider`: when an app-managed api key is present the resume id
is dropped; the constructed provider is stored under the sub-chat id. -/
def createProvider (st : PoolState) (params : ProviderParams)
    (authFingerprint : Option String) : ACPProvider × PoolState :=
  let existingSessionIdForProvider :=
    if hasAppManagedApiKey params.authConfig then none
    else params.existingSessionId
  let provider : ACPProvider :=
    { id := st.nextProviderId
      cwd := params.cwd
      mcpServers := params.mcpServers
      authMethodId := getCodexAuthMethodId params.authConfig
      existingSessionId := existingSessionIdForProvider }
  (provider,
    { st with
        providerSessions := insertA st.providerSessions params.subChatId
          { provider := provider
            cwd := params.cwd
            authFingerprint := authFingerprint
            mcpFingerprint := params.mcpFingerprint }
        nextProviderId := st.nextProviderId + 1 })

/-- Function `getOrCreateProvider` from the router: reuse on an exact
(cwd, authFingerprint, mcpFingerprint) match, otherwise clean up the old
provider, delete its entry, and construct a fresh one. -/
def getOrCreateProvider (st : PoolState) (params : ProviderParams) :
    ACPProvider × PoolState :=
  let authFingerprint := getAuthFingerprint params.authConfig
  match lookupA st.providerSessions params.subChatId with
  | some existing =>
    if existing.cwd == params.cwd
        && existing.authFingerprint == authFingerprint
        && existing.mcpFingerprint == params.mcpFingerprint then
      (existing.provider, st)
    else
      let st1 : PoolState :=
        { st with
            cleanedUp := existing.provider.id :: st.cleanedUp
            providerSessions := eraseA st.providerSessions params.subChatId }
      createProvider st1 params authFingerprint
  | none => createProvider st params authFingerprint

/-- Function `cleanupProvider` from the router: idempotent teardown of the stored
provider session for one sub-chat. -/
def cleanupProvider (st : PoolState) (subChatId : String) : PoolState :=
  match lookupA st.providerSessions subChatId with
  | none => st
  | some existing =>
    { st with
        cleanedUp := existing.provider.id :: st.cleanedUp
        providerSessions := eraseA st.providerSessions subChatId }

/-! ### Active-run registry -/

structure ActiveCodexStream where
  runId : String
  controller : Nat
deriving Repr, DecidableEq

/-- Router-level mutable state: the pool, the `activeStreams` map, the set
of aborted controllers, and a fresh-id counter for controllers. -/
structure RouterState where
  pool : PoolState
  activeStreams : List (String × ActiveCodexStream)
  abortedControllers : List Nat
  nextControllerId : Nat
deriving Repr, DecidableEq

/-- The supersede prologue of `codexRouter.chat`'s subscription: abort any
existing stream's controller, clean up the provider, then store the new
(runId, controller) entry. -/
def chatSubscribeStart (st : RouterState) (subChatId runId : String) :
    RouterState :=
  let st1 :=
    match lookupA st.activeStreams subChatId with
    | some existingStream =>
      { st with
          abortedControllers := existingStream.controller :: st.abortedControllers
          pool := cleanupProvider st.pool subChatId }
    | none => st
  { st1 with
      activeStreams := insertA st1.activeStreams subChatId
        { runId := runId, controller := st1.nextControllerId }
      nextControllerId := st1.nextControllerId + 1 }

/-- The `finally` block of the chat task (also the teardown closure's
delete): compare-and-delete of the `activeStreams` entry by run id. -/
def chatRunTeardown (st : RouterState) (subChatId runId : String) :
    RouterState :=
  match lookupA st.activeStreams subChatId with
  | some a =>
    if a.runId == runId then
      { st with activeStreams := eraseA st.activeStreams subChatId }
    else st
  | none => st

structure CancelResult where
  cancelled : Bool
  ignoredStale : Bool
deriving Repr, DecidableEq

/-- Procedure `codexRouter.cancel`: no entry / stale run id / matching run id. -/
def cancelRun (st : RouterState) (subChatId runId : String) :
    CancelResult × RouterState :=
  match lookupA st.activeStreams subChatId with
  | none => ({ cancelled := false, ignoredStale := false }, st)
  | some activeStream =>
    if activeStream.runId != runId then
      ({ cancelled := false, ignoredStale := true }, st)
    else
      let st1 := { st with
        abortedControllers := activeStream.controller :: st.abortedControllers }
      let st2 := { st1 with pool := cleanupProvider st1.pool subChatId }
      let st3 := { st2 with activeStreams := eraseA st2.activeStreams subChatId }
      ({ cancelled := true, ignoredStale := false }, st3)

/-! ### Stored messages and the Building phase -/

inductive MsgPart where
  | text (t : String)
  | fileContent (filePath : Option String) (content : Option String)
  | dataImage (base64Data mediaType : String) (filename : Option String)
  | otherPart
deriving Repr, DecidableEq

structure StoredMessage where
  id : String
  role : String
  parts : List MsgPart
  metadataModel : Option String
  metadataSessionId : Option String
deriving Repr, DecidableEq

/-- Expression `filePath?.split("/").pop() || filePath || "file"` from the
router (JS falsiness of the empty string included). -/
def fileNameOf (filePath : Option String) : String :=
  match filePath with
  | none => "file"
  | some fp =>
    let fileName := (splitOnChar fp '/').getLastD ""
    if fileName != "" then fileName
    else if fp != "" then fp
    else "file"

/-- Function `extractPromptFromStoredMessage`: text parts joined with newlines,
followed by the formatted file-content parts. -/
def extractPromptFromStoredMessage (message : StoredMessage) : String :=
  let textParts := message.parts.filterMap (fun part =>
    match part with
    | .text t => some t
    | _ => none)
  let fileContents := message.parts.filterMap (fun part =>
    match part with
    | .fileContent filePath content =>
      some ("\n--- " ++ fileNameOf filePath ++ " ---\n" ++ content.getD "")
    | _ => none)
  String.intercalate "\n" textParts ++ String.join fileContents

structure ImageAttachment where
  base64Data : String
  mediaType : String
  filename : Option String
deriving Repr, DecidableEq

/-- Function `buildUserParts`: a leading text part, then one data-image part per
image that has both a base64 payload and a media type. -/
def buildUserParts (prompt : String) (images : List ImageAttachment) :
    List MsgPart :=
  MsgPart.text prompt ::
    images.filterMap (fun image =>
      if image.base64Data == "" || image.mediaType == "" then none
      else some (MsgPart.dataImage image.base64Data image.mediaType image.filename))

/-- The duplicate test in `codexRouter.chat`'s Building phase: the last
stored message is a user message whose extracted prompt equals the input. -/
def isDuplicatePrompt (existingMessages : List StoredMessage) (prompt : String) :
    Bool :=
  match existingMessages.getLast? with
  | some lastMessage =>
    lastMessage.role == "user"
      && extractPromptFromStoredMessage lastMessage == prompt
  | none => false

structure BuildingResult where
  messagesForStream : List StoredMessage
  wroteTranscript : Bool
deriving Repr, DecidableEq

/-- The user-turn construction in the Building phase: skip append and skip
the database write when the prompt duplicates the last stored user turn. -/
def buildingAppendUserTurn (existingMessages : List StoredMessage)
    (prompt : String) (images : List ImageAttachment) (freshId : String)
    (metadataModel : String) : BuildingResult :=
  if isDuplicatePrompt existingMessages prompt then
    { messagesForStream := existingMessages, wroteTranscript := false }
  else
    let userMessage : StoredMessage :=
      { id := freshId
        role := "user"
        parts := buildUserParts prompt images
        metadataModel := some metadataModel
        metadataSessionId := none }
    { messagesForStream := existingMessages ++ [userMessage]
      wroteTranscript := true }

/-- Function `getLastSessionId`: the session id of the last assistant message. -/
def getLastSessionId (messages : List StoredMessage) : Option String :=
  match messages.reverse.find? (fun m => m.role == "assistant") with
  | some lastAssistant => lastAssistant.metadataSessionId
  | none => none

/-- The `existingSessionId` argument `codexRouter.chat` passes into
`getOrCreateProvider`. -/
def resumeArgForChat (forceNewSession : Bool) (sessionId : Option String)
    (existingMessages : List StoredMessage) : Option String :=
  if forceNewSession then none
  else
    match sessionId with
    | some s => some s
    | none => getLastSessionId existingMessages

/-! ### Chunks, auth classification, the streaming loop -/

inductive Chunk where
  | textDelta (s : String)
  | errorC (errorText : String) (code : Option String)
  | authErrorC (errorText : String)
  | finish
  | sessionInit
  | otherChunk
deriving Repr, DecidableEq

def AUTH_HINTS : List String :=
  ["not logged in", "authentication required", "auth required",
   "login required", "missing credentials", "no credentials",
   "unauthorized", "forbidden", "codex login", "401", "403"]

/-- Function `isCodexAuthError`: case-insensitive substring match of code+message
against the fixed auth-hint list. -/
def isCodexAuthError (message code : Option String) : Bool :=
  let searchableText := lowerString ((code.getD "") ++ " " ++ (message.getD ""))
  AUTH_HINTS.any (fun hint => strIncludes searchableText hint)

/-- What the streaming read loop emits for one chunk: error chunks are
re-classified (auth errors become `auth-error` chunks), everything else is
forwarded verbatim. -/
def classifyForward (c : Chunk) : Chunk :=
  match c with
  | .errorC errorText code =>
    if isCodexAuthError (some errorText) code then .authErrorC errorText
    else .errorC errorText code
  | c => c

/-- The `while (true)` read loop of `codexRouter.chat`'s Streaming phase:
the loop `continue`s after an error chunk and keeps reading. -/
def streamLoop : List Chunk → List Chunk
  | [] => []
  | .errorC errorText code :: rest =>
    (if isCodexAuthError (some errorText) code then Chunk.authErrorC errorText
     else Chunk.errorC errorText code) :: streamLoop rest
  | c :: rest => c :: streamLoop rest

/-- Following the spec's words (§4.4 Streaming): "if classified as an
authentication error, transition to AuthError and stop reading further
chunks" — the loop is to terminate right after emitting the auth-error
chunk.  For comparison with `streamLoop`. -/
def streamLoopSpecStop : List Chunk → List Chunk
  | [] => []
  | .errorC errorText code :: rest =>
    if isCodexAuthError (some errorText) code then [Chunk.authErrorC errorText]
    else Chunk.errorC errorText code :: streamLoopSpecStop rest
  | c :: rest => c :: streamLoopSpecStop rest

/-- The catch block of the chat task: one classified error chunk, then one
finish chunk. -/
def buildFailureChunks (message : String) (code : Option String) : List Chunk :=
  (if isCodexAuthError (some message) code then Chunk.authErrorC message
   else Chunk.errorC message none) :: [Chunk.finish]

def isFinishChunk (c : Chunk) : Bool := c == Chunk.finish

def isErrorChunk (c : Chunk) : Bool :=
  match c with
  | .errorC _ _ => true
  | .authErrorC _ => true
  | _ => false

/-- Outcome of the `resolveCodexMcpSnapshot` call inside the chat task's
inner try/catch. -/
inductive McpResolution where
  | resolved (servers : List CodexMcpServerForSession)
  | failed (message : String)
deriving Repr, DecidableEq

/-- Outcome of `getOrCreateProvider` and the start of the provider call:
a throw here propagates to the chat task's outer catch. -/
inductive AcquisitionResult where
  | acquired
  | threw (message : String) (code : Option String)
deriving Repr, DecidableEq

/-- One turn of the chat task body, with the outcome of each fallible
Building step supplied as input: whether the sub-chat row exists, how
`resolveCodexMcpSnapshot` fared, how provider acquisition fared, and the
chunks the UI stream yields once streaming starts. -/
structure ChatTaskInput where
  subChatFound : Bool
  mcpResolution : McpResolution
  providerAcquisition : AcquisitionResult
  streamChunks : List Chunk
deriving Repr, DecidableEq

/-- The MCP snapshot the turn actually uses: the inner catch swallows a
resolution failure (logging only) and keeps the default empty snapshot. -/
def mcpServersForTurn : McpResolution → List CodexMcpServerForSession
  | .resolved servers => servers
  | .failed _ => []

structure ChatTaskResult where
  emitted : List Chunk
  streamedWithServers : Option (List CodexMcpServerForSession)
deriving Repr, DecidableEq

/-- The chat task body from the sub-chat lookup onward: a missing sub-chat
row throws "Sub-chat not found" to the outer catch, an MCP resolution
failure is swallowed and the turn continues with the empty snapshot, an
acquisition throw reaches the outer catch (one classified error chunk,
one finish chunk), and otherwise the stream is read and forwarded with the
resolved servers. -/
def runChatTask (input : ChatTaskInput) : ChatTaskResult :=
  if !input.subChatFound then
    { emitted := buildFailureChunks "Sub-chat not found" none
      streamedWithServers := none }
  else
    match input.providerAcquisition with
    | .threw message code =>
      { emitted := buildFailureChunks message code
        streamedWithServers := none }
    | .acquired =>
      { emitted := streamLoop input.streamChunks
        streamedWithServers := some (mcpServersForTurn input.mcpResolution) }

/-! ### Renderer transport: auth-error recovery (`ACPChatTransport`) -/

structure PendingAuthRetryMessage where
  subChatId : String
  prompt : String
  readyToRetry : Bool
deriving Repr, DecidableEq

structure TransportState where
  forceFreshSessionSubChats : List String
  pendingAuthRetryMessage : Option PendingAuthRetryMessage
deriving Repr, DecidableEq

structure SendBeginResult where
  forceNewSession : Bool
  st : TransportState
deriving Repr, DecidableEq

/-- The start of `sendMessages`: read the one-shot fresh-session flag and
consume it. -/
def sendMessagesBegin (st : TransportState) (subChatId : String) :
    SendBeginResult :=
  let forceNewSession := st.forceFreshSessionSubChats.contains subChatId
  if forceNewSession then
    { forceNewSession := true
      st := { st with
        forceFreshSessionSubChats :=
          st.forceFreshSessionSubChats.filter (fun s => s != subChatId) } }
  else
    { forceNewSession := false, st := st }

structure AuthErrorOutcome where
  st : TransportState
  toastShown : Bool
  loginModalOpened : Bool
deriving Repr, DecidableEq

/-- The `auth-error` branch of `onData` in `sendMessages`: mark the
sub-chat for a fresh session, stage the pending retry message with
`readyToRetry` exactly when a credential exists and this send was not
already forced-fresh, and surface the login modal (no credential) or a
toast (credential rejected, no silent retry) otherwise. -/
def onAuthErrorChunk (st : TransportState) (subChatId prompt : String)
    (hasApiKey hasSubscription forceNewSession : Bool) : AuthErrorOutcome :=
  let st1 := { st with
    forceFreshSessionSubChats :=
      if st.forceFreshSessionSubChats.contains subChatId then
        st.forceFreshSessionSubChats
      else subChatId :: st.forceFreshSessionSubChats }
  let hasAny := hasApiKey || hasSubscription
  let shouldAutoRetryOnce := hasAny && !forceNewSession
  let st2 := { st1 with
    pendingAuthRetryMessage :=
      some { subChatId := subChatId, prompt := prompt
             readyToRetry := shouldAutoRetryOnce } }
  if !hasAny then
    { st := st2, toastShown := false, loginModalOpened := true }
  else if !shouldAutoRetryOnce then
    { st := st2, toastShown := true, loginModalOpened := false }
  else
    { st := st2, toastShown := false, loginModalOpened := false }

/-! ### Login sessions -/

inductive CodexLoginSessionState where
  | running
  | success
  | error
  | cancelled
deriving Repr, DecidableEq

structure CodexLoginSession where
  id : String
  hasProcess : Bool
  state : CodexLoginSessionState
  output : String
  url : Option String
  error : Option String
  exitCode : Option Int
deriving Repr, DecidableEq

/-- The mutation `codexRouter.cancelLogin` applies to a found session. -/
def cancelLoginSession (session : CodexLoginSession) : CodexLoginSession :=
  { session with state := .cancelled, error := none }

/-- The `close` handler installed by `codexRouter.startLogin`: record the
exit code and drop the process handle; if the session was cancelled, keep
that state, otherwise derive success or error from the exit code. -/
def loginCloseHandler (session : CodexLoginSession) (exitCode : Option Int) :
    CodexLoginSession :=
  let session1 := { session with exitCode := exitCode, hasProcess := false }
  if session1.state == .cancelled then session1
  else if exitCode == some 0 then
    { session1 with state := .success, error := none }
  else
    { session1 with
        state := .error
        error := some (session1.error.getD
          ("Codex login exited with code " ++
            (match exitCode with
             | some c => toString c
             | none => "unknown"))) }

/-! ### Claim C9 — auth fingerprint determinism and the null collapse -/

/-- C9 counterexample: the claim asserts that an absent `authConfig` and an
empty-string api key "produce different fingerprint values"; on the code
both take the `!apiKey` early return and yield the same value, `null`. -/
theorem c9_counterexample :
    getAuthFingerprint none = getAuthFingerprint (some { apiKey := "" }) := by
  decide

/-- C9 (amended): `getAuthFingerprint` is deterministic — equal credential
material (equal trimmed keys) yields equal fingerprints — but an absent
credential and a blank credential both map to the null fingerprint; a
non-blank key maps to the digest of its trimmed value. -/
theorem c9_auth_fingerprint_deterministic (a b s : String) :
    (trimString a = trimString b →
      getAuthFingerprint (some { apiKey := a }) =
        getAuthFingerprint (some { apiKey := b }))
    ∧ (trimString s = "" → getAuthFingerprint (some { apiKey := s }) = none)
    ∧ (trimString s ≠ "" →
      getAuthFingerprint (some { apiKey := s }) = some (sha256Hex (trimString s)))
    ∧ getAuthFingerprint (none : Option AuthConfig) = none := by
  refine ⟨?_, ?_, ?_, rfl⟩
  · intro h
    simp only [getAuthFingerprint, h]
  · intro h
    simp [getAuthFingerprint, h]
  · intro h
    simp [getAuthFingerprint, h]

theorem c9_auth_fingerprint_witness :
    trimString " key " = trimString "key" ∧
      getAuthFingerprint (some { apiKey := " key " }) =
        getAuthFingerprint (some { apiKey := "key" }) :=
  ⟨by decide,
   (c9_auth_fingerprint_deterministic " key " "key" "x").1 (by decide)⟩

/-! ### Claim C10 — a cancelled login session stays cancelled -/

/-- C10: once `cancelLogin` has set a session's state to `cancelled`, the
subprocess close handler still records the exit code (and drops the process
handle) but leaves the state `cancelled`, whatever the exit code is. -/
theorem c10_cancelled_login_state_is_final (session : CodexLoginSession)
    (exitCode : Option Int) :
    (loginCloseHandler (cancelLoginSession session) exitCode).state =
        CodexLoginSessionState.cancelled
      ∧ (loginCloseHandler (cancelLoginSession session) exitCode).exitCode =
        exitCode := by
  constructor <;> simp [loginCloseHandler, cancelLoginSession]

/-! ### Claim C7 — chunk classification; the loop does not stop -/

/-- C7 counterexample: the claim says that after a chunk is classified as
an authentication error the executor "stops reading further chunks (no
chunks after it are forwarded)"; the read loop in fact `continue`s — on
the stream `[error "401 unauthorized", text "after"]` the text chunk is
still forwarded after the auth-error chunk, unlike the stop behaviour the
spec's words prescribe (`streamLoopSpecStop`). -/
theorem c7_counterexample :
    streamLoop [Chunk.errorC "401 unauthorized" none, Chunk.textDelta "after"] =
        [Chunk.authErrorC "401 unauthorized", Chunk.textDelta "after"]
      ∧ streamLoopSpecStop
          [Chunk.errorC "401 unauthorized" none, Chunk.textDelta "after"] =
        [Chunk.authErrorC "401 unauthorized"]
      ∧ streamLoop [Chunk.errorC "401 unauthorized" none, Chunk.textDelta "after"] ≠
        streamLoopSpecStop
          [Chunk.errorC "401 unauthorized" none, Chunk.textDelta "after"] := by
  refine ⟨by decide, by decide, by decide⟩

/-- C7 (amended): each error chunk is classified by case-insensitive
substring matching against the fixed auth-hint list before forwarding
(auth errors are emitted as `auth-error` chunks), every non-error chunk is
forwarded verbatim, and the loop forwards the whole stream in order — it
keeps reading after an auth-error chunk rather than stopping. -/
theorem c7_classify_and_forward_in_order (chunks : List Chunk) :
    streamLoop chunks = chunks.map classifyForward
    ∧ (∀ errorText code,
        classifyForward (Chunk.errorC errorText code) =
          (if isCodexAuthError (some errorText) code then
            Chunk.authErrorC errorText
           else Chunk.errorC errorText code))
    ∧ (∀ c : Chunk, (∀ errorText code, c ≠ Chunk.errorC errorText code) →
        classifyForward c = c) := by
  refine ⟨?_, fun _ _ => rfl, ?_⟩
  · induction chunks with
    | nil => rfl
    | cons c rest ih => cases c <;> simp [streamLoop, classifyForward, ih]
  · intro c h
    cases c with
    | errorC errorText code => exact absurd rfl (h errorText code)
    | _ => rfl

theorem c7_classify_witness :
    streamLoop [Chunk.textDelta "x", Chunk.finish] =
        [Chunk.textDelta "x", Chunk.finish].map classifyForward
      ∧ classifyForward Chunk.finish = Chunk.finish :=
  ⟨(c7_classify_and_forward_in_order [Chunk.textDelta "x", Chunk.finish]).1,
   (c7_classify_and_forward_in_order []).2.2 Chunk.finish
     (fun _ _ h => Chunk.noConfusion h)⟩

/-! ### Claim C5 — terminal finish chunk -/

theorem streamLoop_countP_finish (chunks : List Chunk) :
    (streamLoop chunks).countP isFinishChunk = chunks.countP isFinishChunk := by
  induction chunks with
  | nil => rfl
  | cons c rest ih =>
    cases c <;>
      simp [streamLoop, List.countP_cons, isFinishChunk, ih] <;>
      split <;>
      simp [List.countP_cons, isFinishChunk, ih]

theorem buildFailureChunks_counts (message : String) (code : Option String) :
    (buildFailureChunks message code).countP isFinishChunk = 1
      ∧ (buildFailureChunks message code).countP isErrorChunk = 1 := by
  by_cases hAuth : isCodexAuthError (some message) code <;>
    simp [buildFailureChunks, hAuth, List.countP_cons, isFinishChunk, isErrorChunk]

/-- C5 counterexample: the claim says errors during Building — including
tool resolution — abort the turn and surface as a single error (or
auth-error) chunk followed by exactly one finish chunk.  A
`resolveCodexMcpSnapshot` failure is instead swallowed by the inner
try/catch: with the sub-chat present and acquisition succeeding, the turn
emits no error chunk at all and streams with the default empty MCP
snapshot. -/
theorem c5_counterexample :
    (runChatTask { subChatFound := true
                   mcpResolution := .failed "Failed to parse Codex MCP list JSON output."
                   providerAcquisition := .acquired
                   streamChunks := [Chunk.textDelta "hi", Chunk.finish] }).emitted =
        [Chunk.textDelta "hi", Chunk.finish]
      ∧ (runChatTask { subChatFound := true
                       mcpResolution := .failed "Failed to parse Codex MCP list JSON output."
                       providerAcquisition := .acquired
                       streamChunks := [Chunk.textDelta "hi", Chunk.finish] }).emitted.countP
          isErrorChunk = 0
      ∧ (runChatTask { subChatFound := true
                       mcpResolution := .failed "Failed to parse Codex MCP list JSON output."
                       providerAcquisition := .acquired
                       streamChunks := [Chunk.textDelta "hi", Chunk.finish] }).streamedWithServers =
          some [] := by
  refine ⟨by decide, by decide, by decide⟩

/-- C5 (amended): a missing sub-chat row and a session-acquisition throw
abort the turn through the outer catch and surface as a single classified
error (or auth-error) chunk followed by exactly one finish chunk, with no
streaming; a tool-resolution failure is swallowed by the inner catch and
the turn proceeds, streaming with the default empty MCP snapshot; and a
streamed turn whose provider stream carries exactly one finish part
delivers exactly one finish chunk to the output. -/
theorem c5_build_error_and_finish_routing (input : ChatTaskInput)
    (message : String) (code : Option String) :
    (input.subChatFound = false →
      (runChatTask input).emitted =
          [Chunk.errorC "Sub-chat not found" none, Chunk.finish]
        ∧ (runChatTask input).emitted.countP isFinishChunk = 1
        ∧ (runChatTask input).streamedWithServers = none)
    ∧ (input.subChatFound = true →
        input.providerAcquisition = .threw message code →
      ((runChatTask input).emitted = [Chunk.authErrorC message, Chunk.finish]
          ∨ (runChatTask input).emitted = [Chunk.errorC message none, Chunk.finish])
        ∧ (runChatTask input).emitted.countP isFinishChunk = 1
        ∧ (runChatTask input).emitted.countP isErrorChunk = 1
        ∧ (runChatTask input).streamedWithServers = none)
    ∧ (input.subChatFound = true →
        input.providerAcquisition = .acquired →
      (runChatTask input).emitted = streamLoop input.streamChunks
        ∧ (runChatTask input).streamedWithServers =
            some (mcpServersForTurn input.mcpResolution)
        ∧ (∀ e, input.mcpResolution = .failed e →
            (runChatTask input).streamedWithServers = some []))
    ∧ (input.subChatFound = true →
        input.providerAcquisition = .acquired →
        input.streamChunks.countP isFinishChunk = 1 →
        (runChatTask input).emitted.countP isFinishChunk = 1) := by
  have hnf : isCodexAuthError (some "Sub-chat not found") none = false := by
    decide
  refine ⟨?_, ?_, ?_, ?_⟩
  · intro h
    refine ⟨?_, ?_, ?_⟩ <;>
      simp [runChatTask, h, buildFailureChunks, hnf, List.countP_cons,
        isFinishChunk]
  · intro h ha
    refine ⟨?_, ?_, ?_, ?_⟩
    · by_cases hAuth : isCodexAuthError (some message) code
      · exact Or.inl (by simp [runChatTask, h, ha, buildFailureChunks, hAuth])
      · exact Or.inr (by simp [runChatTask, h, ha, buildFailureChunks, hAuth])
    · simpa [runChatTask, h, ha] using (buildFailureChunks_counts message code).1
    · simpa [runChatTask, h, ha] using (buildFailureChunks_counts message code).2
    · simp [runChatTask, h, ha]
  · intro h ha
    refine ⟨by simp [runChatTask, h, ha], by simp [runChatTask, h, ha], ?_⟩
    intro e he
    simp [runChatTask, h, ha, he, mcpServersForTurn]
  · intro h ha hcount
    simpa [runChatTask, h, ha, streamLoop_countP_finish] using hcount

theorem c5_build_error_witness :
    (runChatTask { subChatFound := false, mcpResolution := .resolved []
                   providerAcquisition := .acquired, streamChunks := [] }).emitted =
        [Chunk.errorC "Sub-chat not found" none, Chunk.finish]
      ∧ (runChatTask { subChatFound := false, mcpResolution := .resolved []
                       providerAcquisition := .acquired
                       streamChunks := [] }).emitted.countP isFinishChunk = 1
      ∧ (runChatTask { subChatFound := false, mcpResolution := .resolved []
                       providerAcquisition := .acquired
                       streamChunks := [] }).streamedWithServers = none :=
  (c5_build_error_and_finish_routing
    { subChatFound := false, mcpResolution := .resolved []
      providerAcquisition := .acquired, streamChunks := [] }
    "boom" none).1 rfl

/-! ### Claim C2 — provider session reuse vs. recreation -/

/-- C2: when the stored session's (cwd, authFingerprint, mcpFingerprint)
triple equals the requested one, `getOrCreateProvider` returns the stored
provider instance and changes nothing (so two consecutive calls return the
same instance); when any component differs, the old provider is cleaned
up and its entry removed, and a freshly constructed provider is stored —
the map keeps at most one live session per sub-chat. -/
theorem c2_session_reuse_and_recreation (st : PoolState) (p : ProviderParams)
    (sess : CodexProviderSession)
    (hP : lookupA st.providerSessions p.subChatId = some sess) :
    ((sess.cwd = p.cwd ∧ sess.authFingerprint = getAuthFingerprint p.authConfig
        ∧ sess.mcpFingerprint = p.mcpFingerprint) →
      getOrCreateProvider st p = (sess.provider, st)
        ∧ getOrCreateProvider (getOrCreateProvider st p).2 p = (sess.provider, st))
    ∧ (¬(sess.cwd = p.cwd ∧ sess.authFingerprint = getAuthFingerprint p.authConfig
        ∧ sess.mcpFingerprint = p.mcpFingerprint) →
      sess.provider.id ∈ (getOrCreateProvider st p).2.cleanedUp
        ∧ (getOrCreateProvider st p).1.id = st.nextProviderId
        ∧ lookupA (getOrCreateProvider st p).2.providerSessions p.subChatId =
            some { provider := (getOrCreateProvider st p).1
                   cwd := p.cwd
                   authFingerprint := getAuthFingerprint p.authConfig
                   mcpFingerprint := p.mcpFingerprint }) := by
  constructor
  · rintro ⟨h1, h2, h3⟩
    have hreuse : getOrCreateProvider st p = (sess.provider, st) := by
      simp [getOrCreateProvider, hP, h1, h2, h3]
    refine ⟨hreuse, ?_⟩
    rw [hreuse]
    exact hreuse
  · intro hNe
    have hcond : (sess.cwd == p.cwd
        && sess.authFingerprint == getAuthFingerprint p.authConfig
        && sess.mcpFingerprint == p.mcpFingerprint) = false := by
      cases hb : (sess.cwd == p.cwd
          && sess.authFingerprint == getAuthFingerprint p.authConfig
          && sess.mcpFingerprint == p.mcpFingerprint) with
      | false => rfl
      | true =>
        exfalso
        apply hNe
        simp only [Bool.and_eq_true, beq_iff_eq] at hb
        exact ⟨hb.1.1, hb.1.2, hb.2⟩
    refine ⟨?_, ?_, ?_⟩ <;>
      simp [getOrCreateProvider, hP, hcond, createProvider, lookupA_insertA_self]

theorem c2_session_reuse_witness :
    ("/r" = "/r" ∧ (none : Option String) = getAuthFingerprint none
        ∧ "fp" = "fp")
      ∧ getOrCreateProvider
          { providerSessions :=
              [("c", { provider := { id := 0, cwd := "/r", mcpServers := []
                                     authMethodId := none
                                     existingSessionId := none }
                       cwd := "/r", authFingerprint := none
                       mcpFingerprint := "fp" })]
            nextProviderId := 1, cleanedUp := [] }
          { subChatId := "c", cwd := "/r", mcpServers := []
            mcpFingerprint := "fp", existingSessionId := none
            authConfig := none } =
        ({ id := 0, cwd := "/r", mcpServers := [], authMethodId := none
           existingSessionId := none },
         { providerSessions :=
             [("c", { provider := { id := 0, cwd := "/r", mcpServers := []
                                    authMethodId := none
                                    existingSessionId := none }
                      cwd := "/r", authFingerprint := none
                      mcpFingerprint := "fp" })]
           nextProviderId := 1, cleanedUp := [] }) :=
  ⟨⟨rfl, rfl, rfl⟩,
   ((c2_session_reuse_and_recreation
      { providerSessions :=
          [("c", { provider := { id := 0, cwd := "/r", mcpServers := []
                                 authMethodId := none
                                 existingSessionId := none }
                   cwd := "/r", authFingerprint := none
                   mcpFingerprint := "fp" })]
        nextProviderId := 1, cleanedUp := [] }
      { subChatId := "c", cwd := "/r", mcpServers := []
        mcpFingerprint := "fp", existingSessionId := none
        authConfig := none }
      { provider := { id := 0, cwd := "/r", mcpServers := []
                      authMethodId := none, existingSessionId := none }
        cwd := "/r", authFingerprint := none, mcpFingerprint := "fp" }
      (by decide)).1 ⟨rfl, rfl, rfl⟩).1⟩

/-! ### Claim C8 — no resume id under forced-fresh or app-managed key -/

/-- C8: provider construction drops the resume/continuation id whenever an
app-managed api key is present, and passes the caller's id through when it
is absent; and `codexRouter.chat` passes no resume id at all when
`forceNewSession` is set — so an app-managed credential never resumes an
earlier session. -/
theorem c8_no_resume_with_api_key_or_forced (st : PoolState)
    (p : ProviderParams) :
    (∀ fp : Option String, hasAppManagedApiKey p.authConfig = true →
      (createProvider st p fp).1.existingSessionId = none)
    ∧ (lookupA st.providerSessions p.subChatId = none →
      hasAppManagedApiKey p.authConfig = true →
        (getOrCreateProvider st p).1.existingSessionId = none)
    ∧ (lookupA st.providerSessions p.subChatId = none →
      hasAppManagedApiKey p.authConfig = false →
        (getOrCreateProvider st p).1.existingSessionId = p.existingSessionId)
    ∧ (∀ (sessionId : Option String) (msgs : List StoredMessage),
        resumeArgForChat true sessionId msgs = none) := by
  refine ⟨?_, ?_, ?_, fun _ _ => rfl⟩
  · intro fp h
    simp [createProvider, h]
  · intro hNone h
    simp [getOrCreateProvider, hNone, createProvider, h]
  · intro hNone h
    simp [getOrCreateProvider, hNone, createProvider, h]

theorem c8_no_resume_witness :
    hasAppManagedApiKey (some { apiKey := "k" }) = true
      ∧ (createProvider
          { providerSessions := [], nextProviderId := 0, cleanedUp := [] }
          { subChatId := "c", cwd := "/r", mcpServers := []
            mcpFingerprint := "fp", existingSessionId := some "old-session"
            authConfig := some { apiKey := "k" } }
          (some "sha")).1.existingSessionId = none :=
  ⟨by decide,
   (c8_no_resume_with_api_key_or_forced
      { providerSessions := [], nextProviderId := 0, cleanedUp := [] }
      { subChatId := "c", cwd := "/r", mcpServers := []
        mcpFingerprint := "fp", existingSessionId := some "old-session"
        authConfig := some { apiKey := "k" } }).1
     (some "sha") (by decide)⟩

/-! ### Claim C3 — cancel semantics -/

/-- C3: `cancel(subChatId, runId)` reports not-cancelled and mutates
nothing when no entry exists; reports `ignoredStale` and mutates nothing
when the stored run id differs; and on a match aborts the run's
controller, tears the provider session down, removes the entry, and
reports cancelled. -/
theorem c3_cancel_semantics (st : RouterState) (subChatId runId : String) :
    (lookupA st.activeStreams subChatId = none →
      cancelRun st subChatId runId =
        ({ cancelled := false, ignoredStale := false }, st))
    ∧ (∀ a : ActiveCodexStream, lookupA st.activeStreams subChatId = some a →
        a.runId ≠ runId →
        cancelRun st subChatId runId =
          ({ cancelled := false, ignoredStale := true }, st))
    ∧ (∀ a : ActiveCodexStream, lookupA st.activeStreams subChatId = some a →
        a.runId = runId →
        (cancelRun st subChatId runId).1 =
            { cancelled := true, ignoredStale := false }
          ∧ a.controller ∈ (cancelRun st subChatId runId).2.abortedControllers
          ∧ lookupA (cancelRun st subChatId runId).2.activeStreams subChatId = none
          ∧ lookupA (cancelRun st subChatId runId).2.pool.providerSessions
              subChatId = none
          ∧ (∀ sess : CodexProviderSession,
              lookupA st.pool.providerSessions subChatId = some sess →
              sess.provider.id ∈ (cancelRun st subChatId runId).2.pool.cleanedUp)) := by
  refine ⟨?_, ?_, ?_⟩
  · intro h
    simp [cancelRun, h]
  · intro a ha hne
    simp [cancelRun, ha, hne]
  · intro a ha hr
    cases hpool : lookupA st.pool.providerSessions subChatId with
    | none =>
      refine ⟨?_, ?_, ?_, ?_, ?_⟩ <;>
        simp [cancelRun, ha, hr, cleanupProvider, hpool, lookupA_eraseA_self]
    | some sess =>
      refine ⟨?_, ?_, ?_, ?_, ?_⟩ <;>
        simp [cancelRun, ha, hr, cleanupProvider, hpool, lookupA_eraseA_self]

theorem c3_cancel_witness :
    lookupA ([] : List (String × ActiveCodexStream)) "c" = none
      ∧ cancelRun
          { pool := { providerSessions := [], nextProviderId := 0, cleanedUp := [] }
            activeStreams := [], abortedControllers := [], nextControllerId := 0 }
          "c" "r" =
        ({ cancelled := false, ignoredStale := false },
         { pool := { providerSessions := [], nextProviderId := 0, cleanedUp := [] }
           activeStreams := [], abortedControllers := [], nextControllerId := 0 }) :=
  ⟨by decide,
   (c3_cancel_semantics
      { pool := { providerSessions := [], nextProviderId := 0, cleanedUp := [] }
        activeStreams := [], abortedControllers := [], nextControllerId := 0 }
      "c" "r").1 (by decide)⟩

/-! ### Claim C1 — at most one active run per sub-chat -/

/-- C1: starting run B for a sub-chat while run A's entry is still in
`activeStreams` aborts A's controller and cleans A's provider session up,
and replaces the entry with B's (runId, controller) pair; A's later
teardown is compare-and-delete, so it leaves B's entry untouched. -/
theorem c1_at_most_one_active_run (st : RouterState)
    (subChatId runIdA runIdB : String) (a : ActiveCodexStream)
    (sess : CodexProviderSession)
    (hA : lookupA st.activeStreams subChatId = some a)
    (hRun : a.runId = runIdA)
    (hP : lookupA st.pool.providerSessions subChatId = some sess)
    (hNe : runIdA ≠ runIdB) :
    a.controller ∈ (chatSubscribeStart st subChatId runIdB).abortedControllers
      ∧ sess.provider.id ∈ (chatSubscribeStart st subChatId runIdB).pool.cleanedUp
      ∧ lookupA (chatSubscribeStart st subChatId runIdB).pool.providerSessions
          subChatId = none
      ∧ lookupA (chatSubscribeStart st subChatId runIdB).activeStreams subChatId =
          some { runId := runIdB, controller := st.nextControllerId }
      ∧ chatRunTeardown (chatSubscribeStart st subChatId runIdB) subChatId runIdA =
          chatSubscribeStart st subChatId runIdB := by
  have hNe' : runIdB ≠ runIdA := fun h => hNe h.symm
  refine ⟨?_, ?_, ?_, ?_, ?_⟩ <;>
    simp [chatSubscribeStart, chatRunTeardown, hA, cleanupProvider, hP,
      lookupA_eraseA_self, lookupA_insertA_self, hNe']

theorem c1_at_most_one_active_run_witness :
    lookupA [("c", ({ runId := "A", controller := 7 } : ActiveCodexStream))] "c" =
        some { runId := "A", controller := 7 }
      ∧ ("A" : String) ≠ "B"
      ∧ (7 : Nat) ∈ (chatSubscribeStart
          { pool :=
              { providerSessions :=
                  [("c", { provider := { id := 3, cwd := "/r", mcpServers := []
                                         authMethodId := none
                                         existingSessionId := none }
                           cwd := "/r", authFingerprint := none
                           mcpFingerprint := "fp" })]
                nextProviderId := 4, cleanedUp := [] }
            activeStreams := [("c", { runId := "A", controller := 7 })]
            abortedControllers := [], nextControllerId := 8 }
          "c" "B").abortedControllers :=
  ⟨by decide, by decide,
   (c1_at_most_one_active_run
      { pool :=
          { providerSessions :=
              [("c", { provider := { id := 3, cwd := "/r", mcpServers := []
                                     authMethodId := none
                                     existingSessionId := none }
                       cwd := "/r", authFingerprint := none
                       mcpFingerprint := "fp" })]
            nextProviderId := 4, cleanedUp := [] }
        activeStreams := [("c", { runId := "A", controller := 7 })]
        abortedControllers := [], nextControllerId := 8 }
      "c" "A" "B" { runId := "A", controller := 7 }
      { provider := { id := 3, cwd := "/r", mcpServers := []
                      authMethodId := none, existingSessionId := none }
        cwd := "/r", authFingerprint := none, mcpFingerprint := "fp" }
      (by decide) rfl (by decide) (by decide)).1⟩

/-! ### Claim C4 — duplicate prompt idempotence -/

theorem extractPrompt_buildUserParts (prompt : String)
    (images : List ImageAttachment) (freshId metadataModel : String) :
    extractPromptFromStoredMessage
      { id := freshId, role := "user", parts := buildUserParts prompt images
        metadataModel := some metadataModel, metadataSessionId := none } =
      prompt := by
  unfold extractPromptFromStoredMessage buildUserParts
  simp only [List.filterMap_cons]
  have himg : ∀ (g : MsgPart → Option String),
      (∀ b64 mt fn, g (MsgPart.dataImage b64 mt fn) = none) →
      (images.filterMap (fun image =>
        if image.base64Data == "" || image.mediaType == "" then none
        else some (MsgPart.dataImage image.base64Data image.mediaType
          image.filename))).filterMap g = [] := by
    intro g hg
    rw [List.filterMap_filterMap, List.filterMap_eq_nil]
    intro x _
    by_cases hx : (x.base64Data == "" || x.mediaType == "") = true
    · simp [hx]
    · simp [hx, hg]
  rw [himg _ (fun _ _ _ => rfl), himg _ (fun _ _ _ => rfl)]
  show String.intercalate "\n" [prompt] ++ String.join [] = prompt
  have h1 : String.intercalate "\n" [prompt] = prompt := rfl
  have h2 : String.join [] = "" := rfl
  rw [h1, h2]
  exact String.append_empty prompt

/-- C4: when the last stored message is a user message whose extracted
prompt equals the incoming prompt, the Building phase appends nothing and
performs no transcript write, streaming over the existing list; and
running the Building phase twice in a row with the same prompt appends
exactly one user turn (the second run is always a no-op). -/
theorem c4_duplicate_prompt_idempotence (existingMessages : List StoredMessage)
    (prompt : String) (images : List ImageAttachment)
    (freshId freshId2 metadataModel : String) :
    (isDuplicatePrompt existingMessages prompt = true →
      buildingAppendUserTurn existingMessages prompt images freshId
          metadataModel =
        { messagesForStream := existingMessages, wroteTranscript := false })
    ∧ buildingAppendUserTurn
        (buildingAppendUserTurn existingMessages prompt images freshId
          metadataModel).messagesForStream prompt images freshId2 metadataModel =
      { messagesForStream :=
          (buildingAppendUserTurn existingMessages prompt images freshId
            metadataModel).messagesForStream
        wroteTranscript := false } := by
  constructor
  · intro h
    simp [buildingAppendUserTurn, h]
  · by_cases h : isDuplicatePrompt existingMessages prompt
    · simp [buildingAppendUserTurn, h]
    · have hdup2 : isDuplicatePrompt (existingMessages ++
          [{ id := freshId, role := "user", parts := buildUserParts prompt images
             metadataModel := some metadataModel
             metadataSessionId := none }]) prompt = true := by
        unfold isDuplicatePrompt
        rw [List.getLast?_concat]
        simp [extractPrompt_buildUserParts]
      simp [buildingAppendUserTurn, h, hdup2]

theorem c4_duplicate_prompt_witness :
    isDuplicatePrompt
        [{ id := "m1", role := "user", parts := [MsgPart.text "hi"]
           metadataModel := none, metadataSessionId := none }] "hi" = true
      ∧ buildingAppendUserTurn
          [{ id := "m1", role := "user", parts := [MsgPart.text "hi"]
             metadataModel := none, metadataSessionId := none }]
          "hi" [] "m2" "model" =
        { messagesForStream :=
            [{ id := "m1", role := "user", parts := [MsgPart.text "hi"]
               metadataModel := none, metadataSessionId := none }]
          wroteTranscript := false } :=
  ⟨by decide,
   (c4_duplicate_prompt_idempotence
      [{ id := "m1", role := "user", parts := [MsgPart.text "hi"]
         metadataModel := none, metadataSessionId := none }]
      "hi" [] "m2" "m3" "model").1 (by decide)⟩

/-! ### Claim C6 — auth-error recovery stages at most one silent retry -/

/-- C6: on a classified auth error, when a credential exists and the
failed send was not already forced-fresh, exactly one silent retry is
staged (`readyToRetry = true`) and no toast or login modal surfaces; when
the send was already forced-fresh or no credential exists, no silent
retry is staged and a user-facing toast or login modal surfaces.  In both
cases the sub-chat is marked to force a fresh session, and the next
`sendMessages` consumes that mark as a one-shot flag. -/
theorem c6_auth_error_single_retry (st : TransportState)
    (subChatId prompt : String)
    (hasApiKey hasSubscription forceNewSession : Bool) :
    ((hasApiKey || hasSubscription) = true → forceNewSession = false →
      (onAuthErrorChunk st subChatId prompt hasApiKey hasSubscription
          forceNewSession).st.pendingAuthRetryMessage =
          some { subChatId := subChatId, prompt := prompt, readyToRetry := true }
        ∧ (onAuthErrorChunk st subChatId prompt hasApiKey hasSubscription
            forceNewSession).toastShown = false
        ∧ (onAuthErrorChunk st subChatId prompt hasApiKey hasSubscription
            forceNewSession).loginModalOpened = false)
    ∧ (forceNewSession = true ∨ (hasApiKey || hasSubscription) = false →
      (onAuthErrorChunk st subChatId prompt hasApiKey hasSubscription
          forceNewSession).st.pendingAuthRetryMessage =
          some { subChatId := subChatId, prompt := prompt, readyToRetry := false }
        ∧ ((onAuthErrorChunk st subChatId prompt hasApiKey hasSubscription
              forceNewSession).toastShown = true
          ∨ (onAuthErrorChunk st subChatId prompt hasApiKey hasSubscription
              forceNewSession).loginModalOpened = true))
    ∧ (onAuthErrorChunk st subChatId prompt hasApiKey hasSubscription
        forceNewSession).st.forceFreshSessionSubChats.contains subChatId = true
    ∧ (sendMessagesBegin (onAuthErrorChunk st subChatId prompt hasApiKey
        hasSubscription forceNewSession).st subChatId).forceNewSession = true
    ∧ (sendMessagesBegin (onAuthErrorChunk st subChatId prompt hasApiKey
        hasSubscription forceNewSession).st
        subChatId).st.forceFreshSessionSubChats.contains subChatId = false := by
  have hmem : subChatId ∈ (onAuthErrorChunk st subChatId prompt hasApiKey
      hasSubscription forceNewSession).st.forceFreshSessionSubChats := by
    by_cases hc : subChatId ∈ st.forceFreshSessionSubChats <;>
      cases hasApiKey <;> cases hasSubscription <;> cases forceNewSession <;>
      simp_all [onAuthErrorChunk]
  have hmark : (onAuthErrorChunk st subChatId prompt hasApiKey hasSubscription
      forceNewSession).st.forceFreshSessionSubChats.contains subChatId = true := by
    simpa using hmem
  refine ⟨?_, ?_, hmark, ?_, ?_⟩
  · intro hAny hForce
    subst hForce
    cases hasApiKey <;> cases hasSubscription <;>
      simp_all [onAuthErrorChunk]
  · rintro (hForce | hAny)
    · subst hForce
      cases hasApiKey <;> cases hasSubscription <;>
        simp [onAuthErrorChunk]
    · cases hasApiKey <;> cases hasSubscription <;>
        simp_all [onAuthErrorChunk]
  · simp [sendMessagesBegin, hmem]
  · simp [sendMessagesBegin, hmem, List.mem_filter]

theorem c6_auth_error_witness :
    (true || false) = true ∧ false = false
      ∧ (onAuthErrorChunk
          { forceFreshSessionSubChats := [], pendingAuthRetryMessage := none }
          "c" "hello" true false false).st.pendingAuthRetryMessage =
        some { subChatId := "c", prompt := "hello", readyToRetry := true }
      ∧ (onAuthErrorChunk
          { forceFreshSessionSubChats := [], pendingAuthRetryMessage := none }
          "c" "hello" true false false).toastShown = false
      ∧ (onAuthErrorChunk
          { forceFreshSessionSubChats := [], pendingAuthRetryMessage := none }
          "c" "hello" true false false).loginModalOpened = false :=
  ⟨rfl, rfl,
   (c6_auth_error_single_retry
      { forceFreshSessionSubChats := [], pendingAuthRetryMessage := none }
      "c" "hello" true false false).1 rfl rfl⟩

end OneCode
